import Mathlib

/-
Verification of the SeisFlows workflow-orchestrator core against its
natural-language specification.  The definitions below are a shallow
embedding of:

  * src/seisflows/solver/specfem3d.py   (class Specfem3D)
  * src/seisflows3/seisflows.py         (class SeisFlows: the lifecycle
    controller commands setup / configure / submit / clean / restart,
    the parameter-file editor `par`, and registration `_register`)

Machine strings are modelled as Lean `String`; the character-level
predicates (substring, affix tests) are written over `List Char` so that
they evaluate by `decide`.  Filesystem state is modelled explicitly:
the working directory is a list of named entries, the parameter file a
string of contents.  Python exceptions and `sys.exit` are modelled with
`Except` / explicit outcome values.
-/

namespace Seisflows

/-! ## String helpers (List Char level, to keep everything decidable) -/

/-- Does the second list start with the first? -/
def startsWithChars : List Char → List Char → Bool
  | [], _ => true
  | _ :: _, [] => false
  | a :: as, b :: bs => a = b && startsWithChars as bs

/-- Does the second list contain the first as a contiguous run? -/
def containsChars (pat : List Char) : List Char → Bool
  | [] => pat.isEmpty
  | c :: cs => startsWithChars pat (c :: cs) || containsChars pat cs

/-- Python `pat in s` (substring test). -/
def strContains (pat s : String) : Bool :=
  containsChars pat.toList s.toList

/-- Python `s.startswith(pat)`. -/
def strStartsWith (pat s : String) : Bool :=
  startsWithChars pat.toList s.toList

/-- Python `s.endswith(suf)`. -/
def strEndsWith (suf s : String) : Bool :=
  startsWithChars suf.toList.reverse s.toList.reverse

/-! ## Specfem3D.check (src/seisflows/solver/specfem3d.py, lines 38-61)

The SeisFlows parameter dictionary `PAR` is an association list from
upper-case keys to string values; `"NT" not in PAR` is a key-membership
test. -/

/-- Dictionary access: first value stored under a key, if any. -/
def alookup {α : Type} (k : String) : List (String × α) → Option α
  | [] => none
  | (k', v) :: tl => if k' = k then some v else alookup k tl

/-- A parameter dictionary: association list key ↦ value. -/
abbrev Par := List (String × String)

/-- Python `key in PAR`. -/
def parContains (par : Par) (k : String) : Bool :=
  (alookup k par).isSome

/-- Message of the exception raised when NT is absent. -/
def ntMsg : String := "'NT' not specified in parameters file"

/-- Message of the exception raised when DT is absent. -/
def dtMsg : String := "'DT' not specified in parameters file"

/-- Message of the exception raised when F0 is absent (the source really
spells "praameters"). -/
def f0Msg : String := "'F0' not specified in praameters file"

/-- Message of the exception raised when FORMAT is absent. -/
def formatMsg : String := "'FORMAT' not specified in parameters file"

/-- Message of the exception raised when FORMAT is not an acceptable value. -/
def formatValMsg : String := "'FORMAT' must be ['su', 'SU']"

/-- The keys `Specfem3D.check` itself requires to be present in `PAR`. -/
def requiredKeys : List String := ["NT", "DT", "F0", "FORMAT"]

/-- The required keys absent from a given parameter dictionary. -/
def missingKeys (par : Par) : List String :=
  requiredKeys.filter (fun k => !parContains par k)

/-- Embedding of `Specfem3D.check`.  `baseCheck` is the result of the
`super().check()` call (solver.base is not part of the sampled source, so
its outcome is passed in).  Each `raise Exception(...)` aborts the method,
so the successive `if` statements form a first-failure cascade. -/
def specfem3dCheck (baseCheck : Except String Unit) (par : Par) :
    Except String Unit :=
  match baseCheck with
  | Except.error e => Except.error e
  | Except.ok () =>
    if !parContains par "NT" then Except.error ntMsg
    else if !parContains par "DT" then Except.error dtMsg
    else if !parContains par "F0" then Except.error f0Msg
    else if !parContains par "FORMAT" then Except.error formatMsg
    else if !(["su", "SU"].contains (((alookup "FORMAT" par).getD ""))) then
      Except.error formatValMsg
    else Except.ok ()

/-! ## SeisFlows.configure (src/seisflows3/seisflows.py, lines 630-659)

Before rendering, configure copies the parameter file to a hidden
temporary backup.  The rendering loop appends text to the parameter file;
any `Exception` is caught, the mangled file removed, the backup copied
back, and the process exits.  On success the backup is removed. -/

/-- On-disk state relevant to `configure`: the contents of the parameter
file and of the temporary backup (`none` = file absent). -/
structure ConfigureState where
  parFile : Option String
  tempFile : Option String
deriving DecidableEq, Repr

/-- The primitive file operations configure performs. -/
inductive ConfigureOp where
  | cpParToTemp
  | appendPar (s : String)
  | rmPar
  | cpTempToPar
  | rmTemp
deriving DecidableEq, Repr

/-- Effect of one file operation. -/
def applyConfigureOp : ConfigureState → ConfigureOp → ConfigureState
  | st, ConfigureOp.cpParToTemp => { st with tempFile := st.parFile }
  | st, ConfigureOp.appendPar s =>
      { st with parFile := some ((st.parFile.getD "") ++ s) }
  | st, ConfigureOp.rmPar => { st with parFile := none }
  | st, ConfigureOp.cpTempToPar => { st with parFile := st.tempFile }
  | st, ConfigureOp.rmTemp => { st with tempFile := none }

/-- Run a sequence of file operations. -/
def runOps (st : ConfigureState) (ops : List ConfigureOp) : ConfigureState :=
  ops.foldl applyConfigureOp st

/-- Operations executed when every template write succeeds: back up, append
every rendered chunk, remove the backup. -/
def configureOpsOk (chunks : List String) : List ConfigureOp :=
  ConfigureOp.cpParToTemp :: (chunks.map ConfigureOp.appendPar)
    ++ [ConfigureOp.rmTemp]

/-- Operations executed when an exception interrupts rendering after `k`
chunks have been appended: the except-branch removes the mangled file and
re-instates the backup. -/
def configureOpsFail (chunks : List String) (k : Nat) : List ConfigureOp :=
  ConfigureOp.cpParToTemp :: ((chunks.take k).map ConfigureOp.appendPar)
    ++ [ConfigureOp.rmPar, ConfigureOp.cpTempToPar]

/-- Embedding of the try/except/else block of `configure`.  `c0` is the
prior parameter-file contents, `chunks` the rendered template pieces,
`failAt = some k` injects an exception while writing chunk `k`.  The
returned Bool records whether the process exited via `sys.exit` (failure
path). -/
def configureRun (c0 : String) (chunks : List String) (failAt : Option Nat) :
    ConfigureState × Bool :=
  match failAt with
  | none => (runOps ⟨some c0, none⟩ (configureOpsOk chunks), false)
  | some k => (runOps ⟨some c0, none⟩ (configureOpsFail chunks k), true)

/-! ## SeisFlows.setup (src/seisflows3/seisflows.py, lines 536-567)

The working directory is a list of (file name, contents).  `unix.rm` /
`unix.cp` (seisflows3.tools.unix, thin wrappers over shutil that are not
part of the sampled source) are modelled with shell semantics: `cp` of a
file into a directory writes the file under its base name, overwriting an
existing file of that name; `rm` deletes by name. -/

/-- Files of the working directory: name ↦ contents. -/
abbrev WorkFiles := List (String × String)

/-- Remove a named file (no-op when absent). -/
def fsRemove (files : WorkFiles) (name : String) : WorkFiles :=
  files.filter (fun p => p.1 ≠ name)

/-- Write a file, overwriting any file of the same name. -/
def fsWrite (files : WorkFiles) (name content : String) : WorkFiles :=
  (name, content) :: fsRemove files name

/-- Working-directory state for `setup`. -/
structure SetupWorld where
  files : WorkFiles
  srcCodeLinked : Bool
deriving DecidableEq, Repr

/-- Base name of the packaged template `ROOT_DIR/templates/parameters.yaml`;
`unix.cp(PAR_FILE, workdir)` writes under this name. -/
def templateBasename : String := "parameters.yaml"

/-- Embedding of `SeisFlows.setup`.  `parameterFile` is the registered
parameter-file name (default "parameters.yaml"), `templateContent` the
packaged template's contents, `userAnswer` the reply typed at the
overwrite prompt.  Note the final `unix.cp(PAR_FILE, workdir)` sits
outside the `if check == "y"` guard: it runs on every path. -/
def setupCmd (parameterFile templateContent : String)
    (overwrite symlink : Bool) (userAnswer : String)
    (w : SetupWorld) : SetupWorld :=
  let fileEx := (alookup parameterFile w.files).isSome
  let w1 :=
    if fileEx then
      let check := if overwrite then "y" else userAnswer
      if check = "y" then { w with files := fsRemove w.files parameterFile }
      else w
    else w
  let w2 := { w1 with files := fsWrite w1.files templateBasename templateContent }
  if symlink && !w2.srcCodeLinked then { w2 with srcCodeLinked := true } else w2

/-! ## SeisFlows.clean (src/seisflows3/seisflows.py, lines 733-758)

The working directory holds entries (top-level names, each possibly a
symlink).  clean asks for confirmation (unless forced), then for each of
the glob patterns "logs", "output*", "stats", "scratch" deletes every
matching entry, first asserting that the full path does not contain
"parameters.yaml" and is not a symlink.  A failed assert raises
`AssertionError` and aborts mid-loop. -/

/-- A top-level working-directory entry. -/
structure Entry where
  name : String
  isLink : Bool
deriving DecidableEq, Repr

/-- The working directory as seen by clean. -/
abbrev FS := List Entry

/-- The two safeguard assertions clean can trip. -/
inductive CleanErr where
  | paramAssert
  | linkAssert
deriving DecidableEq, Repr

/-- Glob patterns used by clean: "output*" matches any name starting with
"output"; the others are literal names. -/
def globMatch (pat : String) (name : String) : Bool :=
  if pat = "output*" then strStartsWith "output" name else name = pat

/-- Full path of an entry, as `glob(os.path.join(workdir, fid))` yields it. -/
def fidOf (wd : String) (e : Entry) : String := wd ++ "/" ++ e.name

/-- The entries a glob pattern matches in the current directory state. -/
def matchedTargets (fs : FS) (pat : String) : List Entry :=
  fs.filter (fun e => globMatch pat e.name)

/-- Inner deletion loop of clean over one pattern's glob results: assert
the safeguards for each target, then `unix.rm` it.  A failed assert
aborts, leaving the deletions made so far. -/
def rmList (wd : String) : FS → List Entry → FS × Option CleanErr
  | fs, [] => (fs, none)
  | fs, t :: ts =>
    if strContains "parameters.yaml" (fidOf wd t) then
      (fs, some CleanErr.paramAssert)
    else if t.isLink then (fs, some CleanErr.linkAssert)
    else rmList wd (fs.erase t) ts

/-- Outer loop of clean over the delete patterns; an assert failure
propagates (the remaining patterns are not processed). -/
def cleanPats (wd : String) : FS → List String → FS × Option CleanErr
  | fs, [] => (fs, none)
  | fs, p :: ps =>
    match rmList wd fs (matchedTargets fs p) with
    | (fs1, none) => cleanPats wd fs1 ps
    | (fs1, some e) => (fs1, some e)

/-- The delete list of clean. -/
def deleteGlobs : List String := ["logs", "output*", "stats", "scratch"]

/-- The deletion phase of clean (confirmation already given). -/
def cleanRun (wd : String) (fs : FS) : FS × Option CleanErr :=
  cleanPats wd fs deleteGlobs

/-- Embedding of `SeisFlows.clean`: forced runs skip the prompt; otherwise
deletion happens only on the answer "y". -/
def cleanCmd (force : Bool) (answer : String) (wd : String) (fs : FS) :
    FS × Option CleanErr :=
  let check := if force then "y" else answer
  if check = "y" then cleanRun wd fs else (fs, none)

/-! ## SeisFlows.par / SeisFlows.submit (src/seisflows3/seisflows.py,
lines 681-731 and 960-1030)

`par` edits one `KEY: value` line of the parameter file, exiting when the
key has no line.  `submit` first clears RESUME_FROM via `par`, optionally
sets STOP_AFTER, registers the parameters (with an interactive precheck
unless forced), verifies that every supplied required path exists on disk
(collecting and reporting all that do not before exiting), and only then
builds the registry (`init_seisflows`) and hands the workflow to
`system.submit`. -/

/-- Python dict-like parameter store of the parameter file. -/
abbrev Params := List (String × String)

/-- Rewrite one `KEY: value` line, leaving every other line unchanged. -/
def setLine (key value : String) (p : String × String) : String × String :=
  if p.1 = key then (p.1, value) else p

/-- Embedding of `SeisFlows.par` with a value: set the key's line when one
exists (`none` = the for/else `sys.exit` because the key has no line). -/
def parSet (ps : Params) (key value : String) : Option Params :=
  if (alookup key ps).isSome then some (ps.map (setLine key value))
  else none

/-- The optional STOP_AFTER override at the top of submit. -/
def stepStop (stopAfter : Option String) (ps : Params) : Option Params :=
  match stopAfter with
  | none => some ps
  | some v => parSet ps "STOP_AFTER" v

/-- REQ_PATHS of submit: the paths that must exist when supplied. -/
def reqPathKeys : List String :=
  ["SPECFEM_BIN", "SPECFEM_DATA", "MODEL_INIT", "MODEL_TRUE",
   "DATA", "LOCAL", "MASK"]

/-- The supplied required paths that do not exist on disk, in REQ_PATHS
order, exactly as submit's collection loop computes them (a `none` value
models yaml null, an empty string is falsy too — both are skipped). -/
def missingReqPaths (paths : List (String × Option String))
    (disk : List String) : List String :=
  reqPathKeys.filterMap (fun k =>
    match alookup k paths with
    | some (some s) => if s ≠ "" ∧ s ∉ disk then some s else none
    | _ => none)

/-- Modelled from the spec: the Stage Driver (workflow.main, not part of
the sampled source) starts "from flow position 0 (or `resume_from` if
set)"; a set RESUME_FROM names a stage of the flow. -/
def stageDriverStart (flow : List String) (resumeFrom : String) : Nat :=
  if resumeFrom = "" then 0 else flow.findIdx (fun s => s = resumeFrom)

/-- Everything a submit invocation reads or writes. -/
structure World where
  workdir : String
  fs : FS
  paramFileExists : Bool
  params : Params
  paths : List (String × Option String)
  precheck : List String
  disk : List String
  flow : List String
  cleanAnswer : String
  precheckAnswer : String
deriving DecidableEq, Repr

/-- How a submit invocation ends. -/
inductive Outcome where
  | exited (tag : String)
  | missingPaths (missing : List String)
  | launched (startPos : Nat)
deriving DecidableEq, Repr

/-- True only for outcomes in which `init_seisflows()` (registry
construction) and `system.submit` were reached. -/
def registryConstructed : Outcome → Bool
  | Outcome.launched _ => true
  | _ => false

/-- Embedding of `SeisFlows.submit` (default .yaml parameter file).  The
steps appear in source order: par("resume_from", ""), optional
par("STOP_AFTER", v), `_register(force)` with its precheck dialogue, the
required-path existence check, then registry construction and handoff.
The handoff start position applies the spec-modelled Stage Driver to the
RESUME_FROM value as registered. -/
def submitCmd (stopAfter : Option String) (force : Bool) (w : World) :
    World × Outcome :=
  if w.paramFileExists = false then
    (w, Outcome.exited "parameter file not found")
  else
    match parSet w.params "RESUME_FROM" "" with
    | none => (w, Outcome.exited "RESUME_FROM not found in parameter file")
    | some ps1 =>
      match stepStop stopAfter ps1 with
      | none =>
        ({ w with params := ps1 },
         Outcome.exited "STOP_AFTER not found in parameter file")
      | some ps2 =>
        if force = false ∧ w.precheck ≠ [] ∧ w.precheckAnswer ≠ "y" then
          ({ w with params := ps2 }, Outcome.exited "precheck declined")
        else if missingReqPaths w.paths w.disk = [] then
          ({ w with params := ps2 },
           Outcome.launched
             (stageDriverStart w.flow ((alookup "RESUME_FROM" ps2).getD "")))
        else
          ({ w with params := ps2 },
           Outcome.missingPaths (missingReqPaths w.paths w.disk))

/-! ## SeisFlows.restart (src/seisflows3/seisflows.py, lines 793-802) -/

/-- How a restart invocation ends: a Python exception escaping clean
propagates (submit is never reached), otherwise submit's outcome. -/
inductive RestartOutcome where
  | cleanFailed (e : CleanErr)
  | submitted (o : Outcome)
deriving DecidableEq, Repr

/-- Embedding of `SeisFlows.restart`: `self.clean(force=force)` then
`self.submit(force=force)` in one process. -/
def restartCmd (force : Bool) (w : World) : World × RestartOutcome :=
  match cleanCmd force w.cleanAnswer w.workdir w.fs with
  | (fs1, some e) => ({ w with fs := fs1 }, RestartOutcome.cleanFailed e)
  | (fs1, none) =>
    let r := submitCmd none force { w with fs := fs1 }
    (r.1, RestartOutcome.submitted r.2)

/-- Invoking clean and then submit with the same force flag, as one
session: the session ends where clean's exception ends it, otherwise
submit runs on the cleaned state. -/
def cleanThenSubmit (force : Bool) (w : World) : World × RestartOutcome :=
  let c := cleanCmd force w.cleanAnswer w.workdir w.fs
  let w1 := { w with fs := c.1 }
  match c.2 with
  | some e => (w1, RestartOutcome.cleanFailed e)
  | none =>
    let r := submitCmd none force w1
    (r.1, RestartOutcome.submitted r.2)

/-! ## SeisFlows._register file-format dispatch (seisflows.py, lines
404-433) and Specfem3D.eval_func (specfem3d.py, lines 126-133) -/

/-- Python exceptions the embedded fragments can raise. -/
inductive PyExc where
  | attributeError (msg : String)
  | nameError (msg : String)
  | typeError (msg : String)
  | systemExit (msg : String)
deriving DecidableEq, Repr

/-- The str attributes relevant to `_register`'s dispatch.  Python's str
has `endswith`; it has no `endwith`. -/
def strAttributes : List String :=
  ["endswith", "startswith", "split", "strip", "upper", "lower", "replace"]

/-- Attribute lookup on a str object: AttributeError when absent. -/
def strLookupAttr (attrName : String) : Except PyExc Unit :=
  if strAttributes.contains attrName then Except.ok ()
  else Except.error (PyExc.attributeError
    ("'str' object has no attribute '" ++ attrName ++ "'"))

/-- What `_register`'s dispatch can produce when it does not raise. -/
inductive RegisterResult where
  | loadedYaml
  | loadedLegacyPy
deriving DecidableEq, Repr

/-- Embedding of `_register`'s parameter-file dispatch: exit when the file
is absent; load yaml when the name ends in ".yaml"; otherwise the elif
guard evaluates `parameter_file.endwith(".py")` — an attribute access that
must resolve before any call — and only past it would the legacy loadpy
branch or the closing TypeError be reached. -/
def registerDispatch (parameterFile : String) (fileEx : Bool) :
    Except PyExc RegisterResult :=
  if !fileEx then
    Except.error (PyExc.systemExit "SeisFlows parameter file not found")
  else if strEndsWith ".yaml" parameterFile then Except.ok RegisterResult.loadedYaml
  else
    match strLookupAttr "endwith" with
    | Except.error e => Except.error e
    | Except.ok () =>
      if strEndsWith ".py" parameterFile then Except.ok RegisterResult.loadedLegacyPy
      else Except.error (PyExc.typeError "Unknown file format")

/-- Names resolvable inside `Specfem3D.eval_func`: the module globals of
src/seisflows/solver/specfem3d.py together with the enclosing binders.
The class is bound as `Specfem3D`; no binding `Specfem3d` exists. -/
def specfem3dModuleNames : List String :=
  ["os", "glob", "sys", "warnings", "solvertools", "unix", "exists",
   "custom_import", "call_solver", "getpar", "setpar", "PAR", "PATH",
   "system", "preprocess", "Specfem3D", "super", "self"]

/-- Name resolution at eval_func's scope: NameError when unresolvable. -/
def lookupGlobal (n : String) : Except PyExc Unit :=
  if specfem3dModuleNames.contains n then Except.ok ()
  else Except.error (PyExc.nameError ("name '" ++ n ++ "' is not defined"))

/-- Which delegated steps of eval_func actually ran. -/
structure EvalFuncTrace where
  baseEvalCalled : Bool
  renameDataCalled : Bool
deriving DecidableEq, Repr

/-- Embedding of `Specfem3D.eval_func`: the body first evaluates
`super(Specfem3d, self)` — resolving the name `Specfem3d` — and only then
would delegate to the base implementation and call `self.rename_data()`. -/
def evalFunc (args : List String) : Except PyExc EvalFuncTrace :=
  match args, lookupGlobal "Specfem3d" with
  | _, Except.error e => Except.error e
  | _, Except.ok () => Except.ok ⟨true, true⟩

/-! ## Concrete instances used by counterexamples and witnesses -/

/-- A directory whose only artifact entry is a symlink named "stats". -/
def c5World : FS := [⟨"stats", true⟩]

/-- A directory holding a parameter file registered as "output.yaml"
(`-p output.yaml`) next to a SPECFEM Par_file. -/
def c6World : FS := [⟨"output.yaml", false⟩, ⟨"Par_file", false⟩]

/-- A setup world with an operator-edited parameters.yaml already present. -/
def c3World : SetupWorld := ⟨[("parameters.yaml", "MY EDITED PARAMETERS")], false⟩

/-- A submittable world whose RESUME_FROM parameter is set to stage "B". -/
def c4World : World :=
  { workdir := "/work", fs := [], paramFileExists := true,
    params := [("RESUME_FROM", "B"), ("STOP_AFTER", "")],
    paths := [], precheck := [], disk := [], flow := ["A", "B", "C"],
    cleanAnswer := "y", precheckAnswer := "y" }

/-- A world supplying required path MODEL_INIT = "/models/init" while the
disk holds only the SPECFEM_BIN directory. -/
def c8World : World :=
  { workdir := "/work", fs := [], paramFileExists := true,
    params := [("RESUME_FROM", ""), ("STOP_AFTER", "")],
    paths := [("SPECFEM_BIN", some "/bin"), ("MODEL_INIT", some "/models/init"),
              ("DATA", none)],
    precheck := ["WORKFLOW"], disk := ["/bin"], flow := ["A", "B"],
    cleanAnswer := "y", precheckAnswer := "y" }

end Seisflows

namespace Seisflows

/-! ## Helper lemmas -/

/-- Appending rendered chunks never touches the temporary backup file. -/
theorem runOps_map_appendPar_tempFile (l : List String) (st : ConfigureState) :
    (runOps st (l.map ConfigureOp.appendPar)).tempFile = st.tempFile := by
  induction l generalizing st with
  | nil => rfl
  | cons a l ih =>
    simp only [List.map_cons, runOps, List.foldl_cons] at *
    rw [ih]
    rfl

/-! ## C1 — validation error accumulation -/

/-- C1 counterexample: the claim says the validation check reports every
missing required key together in one pass.  On the empty parameter
dictionary, `Specfem3D.check` raises only the NT exception although DT,
F0 and FORMAT are missing as well, and its message mentions neither DT
nor FORMAT. -/
theorem check_not_accumulating_counterexample :
    specfem3dCheck (Except.ok ()) [] = Except.error ntMsg ∧
    "DT" ∈ missingKeys [] ∧ "FORMAT" ∈ missingKeys [] ∧
    strContains "DT" ntMsg = false ∧ strContains "FORMAT" ntMsg = false := by
  refine ⟨rfl, ?_, ?_, ?_, ?_⟩ <;> decide

/-- C1 (amended): `Specfem3D.check` is fail-fast, not accumulate-all:
whenever NT is absent it raises the NT exception alone, regardless of
which other required keys are also missing. -/
theorem check_fail_fast (par : Par) (h : parContains par "NT" = false) :
    specfem3dCheck (Except.ok ()) par = Except.error ntMsg := by
  simp [specfem3dCheck, h]

/-- Witness for check_fail_fast at a dictionary missing NT, DT and more. -/
theorem check_fail_fast_witness :
    parContains [("DT", "100")] "NT" = false ∧
    specfem3dCheck (Except.ok ()) [("DT", "100")] = Except.error ntMsg :=
  ⟨by decide, check_fail_fast [("DT", "100")] (by decide)⟩

/-! ## C2 — configure restores the parameter file on failure -/

/-- C2: when an exception interrupts configure's template rendering after
any number of chunks have been appended, the parameter file on disk is
restored to exactly its prior contents and the process exits non-zero. -/
theorem configure_restores_parameter_file (c0 : String) (chunks : List String)
    (k : Nat) :
    (configureRun c0 chunks (some k)).1.parFile = some c0 ∧
    (configureRun c0 chunks (some k)).2 = true := by
  refine ⟨?_, rfl⟩
  have h := runOps_map_appendPar_tempFile (chunks.take k)
    (⟨some c0, some c0⟩ : ConfigureState)
  simp only [configureRun, configureOpsFail, runOps, List.foldl_cons,
    List.foldl_append] at *
  simp [applyConfigureOp] at *
  exact h

/-! ## C3 — setup with an existing parameter file and a declined prompt -/

/-- C3: with parameters.yaml already present, overwrite not passed, and
the operator answering "n" at the prompt, setup still copies the blank
template over the existing file: the working directory is not left as
found. -/
theorem setup_overwrites_despite_decline :
    (setupCmd "parameters.yaml" "TEMPLATE CONTENTS" false false "n" c3World).files
        = [("parameters.yaml", "TEMPLATE CONTENTS")] ∧
    setupCmd "parameters.yaml" "TEMPLATE CONTENTS" false false "n" c3World
        ≠ c3World := by
  refine ⟨rfl, ?_⟩
  decide

/-! ## C4 — submit and resume_from -/

/-- C4 counterexample: with RESUME_FROM set to stage "B" at submission
time, the claim predicts handoff from the flow position of "B" (which is
1), but submit clears RESUME_FROM first and hands off from position 0. -/
theorem submit_ignores_resume_from_counterexample :
    alookup "RESUME_FROM" c4World.params = some "B" ∧
    (submitCmd none true c4World).2 = Outcome.launched 0 ∧
    stageDriverStart c4World.flow "B" = 1 := by
  refine ⟨rfl, ?_, rfl⟩
  decide

/-! ## C6 — clean and a parameter file named output.yaml -/

/-- C6: in a working directory whose registered parameter file is named
"output.yaml" (the -p flag permits this; configure accepts any .yaml
name), clean's "output*" glob matches it, both safeguard assertions pass,
and clean deletes the parameter file while completing without error. -/
theorem clean_deletes_nondefault_parameter_file :
    Entry.mk "output.yaml" false ∈ c6World ∧
    cleanRun "/work" c6World = ([⟨"Par_file", false⟩], none) := by
  refine ⟨?_, rfl⟩
  decide

/-! ## C9 — the misspelled endwith guard in _register -/

/-- C9: for every existing parameter file whose name does not end in
".yaml", _register's legacy branch evaluates the attribute access
`parameter_file.endwith` and raises AttributeError before any legacy .py
loading; the legacy format is never loaded. -/
theorem register_endwith_attribute_error (f : String)
    (h : strEndsWith ".yaml" f = false) :
    registerDispatch f true = Except.error
        (PyExc.attributeError "'str' object has no attribute 'endwith'") ∧
    registerDispatch f true ≠ Except.ok RegisterResult.loadedLegacyPy := by
  have hc : strLookupAttr "endwith" = Except.error
      (PyExc.attributeError "'str' object has no attribute 'endwith'") := rfl
  have hd : registerDispatch f true = Except.error
      (PyExc.attributeError "'str' object has no attribute 'endwith'") := by
    simp [registerDispatch, h, hc]
  exact ⟨hd, by simp [hd]⟩

/-- Witness for register_endwith_attribute_error at "parameters.py". -/
theorem register_endwith_witness :
    strEndsWith ".yaml" "parameters.py" = false ∧
    registerDispatch "parameters.py" true = Except.error
        (PyExc.attributeError "'str' object has no attribute 'endwith'") :=
  ⟨by decide,
   (register_endwith_attribute_error "parameters.py" (by decide)).1⟩

/-! ## C10 — eval_func always raises NameError -/

/-- C10: every invocation of Specfem3D.eval_func, whatever the arguments,
raises NameError on the undefined name Specfem3d; the base-class
evaluation and rename_data are never reached. -/
theorem evalFunc_always_nameError (args : List String) :
    evalFunc args
      = Except.error (PyExc.nameError "name 'Specfem3d' is not defined") := by
  cases args <;> rfl

/-- setLine on the targeted key. -/
theorem setLine_eq_key (key value v : String) :
    setLine key value (key, v) = (key, value) := by
  simp [setLine]

/-- setLine on any other key. -/
theorem setLine_ne_key (key value k v : String) (h : k ≠ key) :
    setLine key value (k, v) = (k, v) := by
  simp [setLine, h]

/-- Setting a line stores the new value under its key. -/
theorem alookup_map_setLine (ps : Params) (key value : String)
    (h : (alookup key ps).isSome = true) :
    alookup key (ps.map (setLine key value)) = some value := by
  induction ps with
  | nil => simp [alookup] at h
  | cons a tl ih =>
    obtain ⟨k, v⟩ := a
    rw [List.map_cons]
    by_cases hk : k = key
    · subst hk
      rw [setLine_eq_key]
      simp [alookup]
    · rw [setLine_ne_key key value k v hk]
      simp only [alookup, if_neg hk] at h
      simp [alookup, hk, ih h]

/-- Setting a line leaves every other key's value unchanged. -/
theorem alookup_map_setLine_other (ps : Params) (key value other : String)
    (hne : other ≠ key) :
    alookup other (ps.map (setLine key value)) = alookup other ps := by
  induction ps with
  | nil => rfl
  | cons a tl ih =>
    obtain ⟨k, v⟩ := a
    rw [List.map_cons]
    by_cases hk : k = key
    · subst hk
      have hko : ¬k = other := fun hh => hne hh.symm
      rw [setLine_eq_key]
      simp [alookup, hko, ih]
    · rw [setLine_ne_key key value k v hk]
      by_cases hko : k = other
      · subst hko
        simp [alookup]
      · simp [alookup, hko, ih]

/-- A successful parSet stores the new value under the key. -/
theorem parSet_lookup_self (ps : Params) (key value : String) (ps' : Params)
    (h : parSet ps key value = some ps') : alookup key ps' = some value := by
  unfold parSet at h
  split at h
  · rename_i hsome
    injection h with h
    subst h
    exact alookup_map_setLine ps key value hsome
  · exact absurd h (by simp)

/-- The optional STOP_AFTER override never changes RESUME_FROM. -/
theorem stepStop_lookup_resume (sa : Option String) (ps1 ps2 : Params)
    (h : stepStop sa ps1 = some ps2) :
    alookup "RESUME_FROM" ps2 = alookup "RESUME_FROM" ps1 := by
  cases sa with
  | none =>
    simp only [stepStop, Option.some.injEq] at h
    subst h
    rfl
  | some v =>
    simp only [stepStop] at h
    unfold parSet at h
    split at h
    · injection h with h
      subst h
      exact alookup_map_setLine_other ps1 "STOP_AFTER" v "RESUME_FROM" (by decide)
    · exact absurd h (by simp)

/-- C4 (amended): whenever submit reaches the Stage Driver handoff it
starts from flow position 0: submit clears the RESUME_FROM parameter
before registering, so a resume_from set at submission time is never
honored by submit (only resume honors it). -/
theorem submit_starts_at_zero (stopAfter : Option String) (force : Bool)
    (w : World) (pos : Nat)
    (h : (submitCmd stopAfter force w).2 = Outcome.launched pos) : pos = 0 := by
  unfold submitCmd at h
  split at h
  · simp at h
  · split at h
    · simp at h
    · rename_i ps1 hps1
      split at h
      · simp at h
      · rename_i ps2 hps2
        split at h
        · simp at h
        · split at h
          · simp only at h
            injection h with h
            have h1 : alookup "RESUME_FROM" ps1 = some "" :=
              parSet_lookup_self w.params "RESUME_FROM" "" ps1 hps1
            have h2 : alookup "RESUME_FROM" ps2 = some "" := by
              rw [stepStop_lookup_resume stopAfter ps1 ps2 hps2, h1]
            rw [h2] at h
            simp [stageDriverStart] at h
            omega
          · simp at h

/-- Witness for submit_starts_at_zero at a world whose RESUME_FROM was
set to "B" before submission. -/
theorem submit_starts_at_zero_witness :
    (submitCmd none true c4World).2 = Outcome.launched 0 ∧ (0 : Nat) = 0 :=
  ⟨by decide, submit_starts_at_zero none true c4World 0 (by decide)⟩

/-- Erasing an entry that satisfies a predicate commutes with filtering. -/
theorem filter_erase_comm (q : Entry → Bool) (t : Entry) (fs : FS)
    (hq : q t = true) : (fs.erase t).filter q = (fs.filter q).erase t := by
  induction fs with
  | nil => rfl
  | cons x fs ih =>
    by_cases hx : x = t
    · subst hx
      rw [List.erase_cons_head, List.filter_cons, if_pos hq, List.erase_cons_head]
    · have hbeq : (x == t) = false := by
        simp [hx]
      rw [List.erase_cons, hbeq]
      simp only [Bool.false_eq_true, if_false]
      rw [List.filter_cons, List.filter_cons]
      by_cases hqx : q x = true
      · rw [if_pos hqx, if_pos hqx, List.erase_cons, hbeq]
        simp only [Bool.false_eq_true, if_false, ih]
      · have hqx' : q x = false := by
          cases hq2 : q x with
          | true => exact absurd hq2 hqx
          | false => rfl
        rw [if_neg (by simp [hqx']), if_neg (by simp [hqx'])]
        exact ih

/-- Re-running the per-pattern deletion loop on its own result changes
nothing: the same outcome (state and error) is produced. -/
theorem rmList_rerun (wd : String) (q : Entry → Bool) :
    ∀ (ts : List Entry) (fs : FS), fs.filter q = ts →
      rmList wd (rmList wd fs ts).1 ((rmList wd fs ts).1.filter q)
        = rmList wd fs ts := by
  intro ts
  induction ts with
  | nil =>
    intro fs h
    simp [rmList, h]
  | cons t ts ih =>
    intro fs h
    cases h1 : strContains "parameters.yaml" (fidOf wd t) with
    | true =>
      have hstep : rmList wd fs (t :: ts) = (fs, some CleanErr.paramAssert) := by
        simp [rmList, h1]
      rw [hstep]
      simp only []
      rw [h]
      simp [rmList, h1]
    | false =>
      cases h2 : t.isLink with
      | true =>
        have hstep : rmList wd fs (t :: ts) = (fs, some CleanErr.linkAssert) := by
          simp [rmList, h1, h2]
        rw [hstep]
        simp only []
        rw [h]
        simp [rmList, h1, h2]
      | false =>
        have hmem : t ∈ fs.filter q := by
          rw [h]; exact List.mem_cons_self t ts
        have hq : q t = true := List.of_mem_filter hmem
        have herase : (fs.erase t).filter q = ts := by
          rw [filter_erase_comm q t fs hq, h, List.erase_cons_head]
        have hstep : rmList wd fs (t :: ts) = rmList wd (fs.erase t) ts := by
          simp [rmList, h1, h2]
        rw [hstep]
        exact ih (fs.erase t) herase

/-- When the per-pattern loop completes without error, no entry matching
the pattern survives. -/
theorem rmList_success_clears (wd : String) (q : Entry → Bool) :
    ∀ (ts : List Entry) (fs fs1 : FS), fs.filter q = ts →
      rmList wd fs ts = (fs1, none) → fs1.filter q = [] := by
  intro ts
  induction ts with
  | nil =>
    intro fs fs1 h hr
    simp only [rmList, Prod.mk.injEq] at hr
    rw [← hr.1, h]
  | cons t ts ih =>
    intro fs fs1 h hr
    cases h1 : strContains "parameters.yaml" (fidOf wd t) with
    | true => simp [rmList, h1] at hr
    | false =>
      cases h2 : t.isLink with
      | true => simp [rmList, h1, h2] at hr
      | false =>
        have hmem : t ∈ fs.filter q := by
          rw [h]; exact List.mem_cons_self t ts
        have hq : q t = true := List.of_mem_filter hmem
        have herase : (fs.erase t).filter q = ts := by
          rw [filter_erase_comm q t fs hq, h, List.erase_cons_head]
        have hstep : rmList wd fs (t :: ts) = rmList wd (fs.erase t) ts := by
          simp [rmList, h1, h2]
        rw [hstep] at hr
        exact ih (fs.erase t) fs1 herase hr

/-- The per-pattern loop only deletes entries. -/
theorem rmList_sublist (wd : String) :
    ∀ (ts : List Entry) (fs : FS), List.Sublist (rmList wd fs ts).1 fs := by
  intro ts
  induction ts with
  | nil =>
    intro fs
    exact List.Sublist.refl fs
  | cons t ts ih =>
    intro fs
    cases h1 : strContains "parameters.yaml" (fidOf wd t) with
    | true =>
      have hstep : rmList wd fs (t :: ts) = (fs, some CleanErr.paramAssert) := by
        simp [rmList, h1]
      rw [hstep]
    | false =>
      cases h2 : t.isLink with
      | true =>
        have hstep : rmList wd fs (t :: ts) = (fs, some CleanErr.linkAssert) := by
          simp [rmList, h1, h2]
        rw [hstep]
      | false =>
        have hstep : rmList wd fs (t :: ts) = rmList wd (fs.erase t) ts := by
          simp [rmList, h1, h2]
        rw [hstep]
        exact (ih (fs.erase t)).trans (List.erase_sublist t fs)

/-- The whole deletion phase only deletes entries. -/
theorem cleanPats_sublist (wd : String) :
    ∀ (ps : List String) (fs : FS), List.Sublist (cleanPats wd fs ps).1 fs := by
  intro ps
  induction ps with
  | nil =>
    intro fs
    exact List.Sublist.refl fs
  | cons p ps ih =>
    intro fs
    rcases hr : rmList wd fs (matchedTargets fs p) with ⟨fs1, e⟩
    have hsub : List.Sublist fs1 fs := by
      have h := rmList_sublist wd (matchedTargets fs p) fs
      rwa [hr] at h
    cases e with
    | none =>
      have hstep : cleanPats wd fs (p :: ps) = cleanPats wd fs1 ps := by
        simp [cleanPats, hr]
      rw [hstep]
      exact (ih fs1).trans hsub
    | some err =>
      have hstep : cleanPats wd fs (p :: ps) = (fs1, some err) := by
        simp [cleanPats, hr]
      rw [hstep]
      exact hsub

/-- Re-running the deletion phase on its own result reproduces the same
state and the same outcome. -/
theorem cleanPats_rerun (wd : String) :
    ∀ (ps : List String) (fs : FS),
      cleanPats wd (cleanPats wd fs ps).1 ps = cleanPats wd fs ps := by
  intro ps
  induction ps with
  | nil =>
    intro fs
    rfl
  | cons p ps ih =>
    intro fs
    rcases hr : rmList wd fs (matchedTargets fs p) with ⟨fs1, e⟩
    have hre : rmList wd fs1 (fs1.filter (fun x => globMatch p x.name)) = (fs1, e) := by
      have h := rmList_rerun wd (fun x => globMatch p x.name) (matchedTargets fs p) fs rfl
      rw [hr] at h
      exact h
    cases e with
    | some err =>
      have h1 : cleanPats wd fs (p :: ps) = (fs1, some err) := by
        simp [cleanPats, hr]
      rw [h1]
      have h2 : matchedTargets fs1 p = fs1.filter (fun x => globMatch p x.name) := rfl
      simp [cleanPats, h2, hre]
    | none =>
      have h1 : cleanPats wd fs (p :: ps) = cleanPats wd fs1 ps := by
        simp [cleanPats, hr]
      rw [h1]
      have hclear : fs1.filter (fun x => globMatch p x.name) = [] :=
        rmList_success_clears wd (fun x => globMatch p x.name)
          (matchedTargets fs p) fs fs1 rfl hr
      have hsub := cleanPats_sublist wd ps fs1
      have hclear2 :
          (cleanPats wd fs1 ps).1.filter (fun x => globMatch p x.name) = [] := by
        have h := List.Sublist.filter (fun x => globMatch p x.name) hsub
        rw [hclear] at h
        exact List.sublist_nil.mp h
      have hstep : rmList wd (cleanPats wd fs1 ps).1
          (matchedTargets (cleanPats wd fs1 ps).1 p)
          = ((cleanPats wd fs1 ps).1, none) := by
        have h2 : matchedTargets (cleanPats wd fs1 ps).1 p
            = (cleanPats wd fs1 ps).1.filter (fun x => globMatch p x.name) := rfl
        rw [h2, hclear2]
        rfl
      simp [cleanPats, hstep]
      exact ih fs1

/-- C5 (amended): invoking clean (with confirmation given) twice in
succession is equivalent to invoking it once — identical final directory
state and identical outcome, so the second invocation deletes nothing
further; in particular it completes without error whenever the first
invocation did.  (As stated, the claim also demanded that the second
invocation always complete without error; the counterexample shows a
state where both invocations trip a safeguard assertion.) -/
theorem clean_idempotent (force : Bool) (wd : String) (fs : FS) :
    cleanCmd force "y" wd (cleanCmd force "y" wd fs).1
      = cleanCmd force "y" wd fs := by
  cases force <;>
    simp only [cleanCmd, if_pos rfl, ite_self] <;>
    exact cleanPats_rerun wd deleteGlobs fs

/-- C5 counterexample: on a directory whose "stats" entry is a symlink,
clean (confirmed with "y") raises AssertionError, and the second
invocation raises it again rather than completing without error. -/
theorem clean_twice_counterexample :
    (cleanCmd false "y" "/work" c5World).2 = some CleanErr.linkAssert ∧
    (cleanCmd false "y" "/work" (cleanCmd false "y" "/work" c5World).1).2
      = some CleanErr.linkAssert := by
  exact ⟨rfl, rfl⟩

/-- C7: for every working-directory state and force flag, restart is the
composition of clean and submit with that same force flag: same final
state and same workflow-submission outcome (an exception escaping clean
ends the session before submit in both readings). -/
theorem restart_eq_clean_then_submit (force : Bool) (w : World) :
    restartCmd force w = cleanThenSubmit force w := by
  rcases h : cleanCmd force w.cleanAnswer w.workdir w.fs with ⟨fs1, e⟩
  cases e <;> simp [restartCmd, cleanThenSubmit, h]

/-- Dictionary lookup finds any present pair when keys are unique. -/
theorem alookup_of_nodup_mem {α : Type} {l : List (String × α)} {k : String}
    {v : α} (hnd : (l.map Prod.fst).Nodup) (hmem : (k, v) ∈ l) :
    alookup k l = some v := by
  induction l with
  | nil => cases hmem
  | cons a tl ih =>
    obtain ⟨k', v'⟩ := a
    simp only [List.map_cons, List.nodup_cons] at hnd
    rcases List.mem_cons.mp hmem with heq | htl
    · injection heq with h1 h2
      subst h1
      subst h2
      simp [alookup]
    · have hk : ¬k' = k := by
        intro hh
        subst hh
        exact hnd.1 (List.mem_map_of_mem Prod.fst htl)
      simp only [alookup, if_neg hk]
      exact ih hnd.2 htl

/-- C8: whenever some required path is supplied (non-null) but absent
from disk — and submit's earlier steps do not exit for unrelated reasons
(parameter file present with a RESUME_FROM line, precheck passed or
forced, unique path keys) — submit ends by reporting the collected list
of missing paths and exiting: the registry is never constructed and no
external process is launched; moreover every supplied required path that
is missing from disk appears in the reported list. -/
theorem submit_aborts_reporting_all_missing (stopAfter : Option String)
    (force : Bool) (w : World)
    (hfile : w.paramFileExists = true)
    (hrf : (alookup "RESUME_FROM" w.params).isSome = true)
    (hsa : stopAfter = none)
    (hpre : ¬(force = false ∧ w.precheck ≠ [] ∧ w.precheckAnswer ≠ "y"))
    (hnd : (w.paths.map Prod.fst).Nodup)
    (hmiss : missingReqPaths w.paths w.disk ≠ []) :
    (submitCmd stopAfter force w).2
        = Outcome.missingPaths (missingReqPaths w.paths w.disk) ∧
    registryConstructed (submitCmd stopAfter force w).2 = false ∧
    ∀ k s, (k, some s) ∈ w.paths → k ∈ reqPathKeys → s ≠ "" → s ∉ w.disk →
      s ∈ missingReqPaths w.paths w.disk := by
  subst hsa
  have hps : parSet w.params "RESUME_FROM" ""
      = some (w.params.map (setLine "RESUME_FROM" "")) := by
    simp [parSet, hrf]
  have hout : submitCmd none force w
      = ({ w with params := w.params.map (setLine "RESUME_FROM" "") },
         Outcome.missingPaths (missingReqPaths w.paths w.disk)) := by
    simp [submitCmd, hfile, hps, stepStop, hpre, hmiss]
  refine ⟨by rw [hout], by rw [hout]; rfl, ?_⟩
  intro k s hmem hk hs hd
  have hlook : alookup k w.paths = some (some s) := alookup_of_nodup_mem hnd hmem
  simp only [missingReqPaths, List.mem_filterMap]
  refine ⟨k, hk, ?_⟩
  simp [hlook, hs, hd]

/-- Witness for submit_aborts_reporting_all_missing at a world supplying
MODEL_INIT = "/models/init" which is not on disk. -/
theorem submit_aborts_witness :
    (submitCmd none true c8World).2
        = Outcome.missingPaths (missingReqPaths c8World.paths c8World.disk) ∧
    registryConstructed (submitCmd none true c8World).2 = false :=
  ⟨(submit_aborts_reporting_all_missing none true c8World (by decide) (by decide)
      rfl (by decide) (by decide) (by decide)).1,
   (submit_aborts_reporting_all_missing none true c8World (by decide) (by decide)
      rfl (by decide) (by decide) (by decide)).2.1⟩

end Seisflows
